import Mathlib

/-!
Verification of the filter/search/pagination pipeline of the Gsheet-refresh
dashboard (src/gcluster.py), as a shallow embedding in Lean.

Modelling conventions:
* a Table is a Lean `List` of records, in row order;
* all cells are Lean `String`s (the source loads the sheet with `dtype=str`
  and fills missing cells with "Not Available");
* parsed calendar dates and timestamps are modelled as `Int` ordinals
  (only their ordering matters to the code under verification);
* the external libraries the script calls — pandas date parsing
  (`pd.to_datetime` with a fixed format and `errors coerce`) and the
  rapidfuzz scoring function (`fuzz` with its 0–100 result) — are taken as
  parameters (`parseDate`, `parseDT`, `score`); every theorem quantifies
  over them, so nothing is assumed about their behaviour.
-/

namespace GSheet

/-! ### Paginator  (src/gcluster.py lines 120–130)

`page_size = 10`
`total_pages = max(1, (len(filtered) - 1) // page_size + 1)`
`start = (page - 1) * page_size`
`end = start + page_size`
`paginated = filtered.iloc[start:end]`

Python `//` is floor division, so for `len(filtered) = 0` the expression is
`max(1, (-1) // 10 + 1) = max(1, 0) = 1`; we use `Int.fdiv`, which floors. -/

def page_size : Nat := 10

def total_pages (n : Nat) : Int :=
  max 1 (Int.fdiv ((n : Int) - 1) (page_size : Nat) + 1)

def paginated (filtered : List α) (page : Nat) : List α :=
  (filtered.drop ((page - 1) * page_size)).take page_size

/-- The Python expression `max(1, (N - 1) // 10 + 1)` equals the ceiling
form `max 1 (⌈N / 10⌉)` written with natural-number division. -/
lemma total_pages_eq (n : Nat) :
    total_pages n = ((max 1 ((n + 9) / 10) : Nat) : Int) := by
  cases n with
  | zero => decide
  | succ m =>
      have h1 : ((m + 1 : Nat) : Int) - 1 = ((m : Nat) : Int) := by push_cast; ring
      have h2 : Int.fdiv ((m : Nat) : Int) ((page_size : Nat) : Int)
          = ((m / 10 : Nat) : Int) := (Int.ofNat_fdiv m page_size).symm
      unfold total_pages
      rw [h1, h2]
      have h3 : (m + 1 + 9) / 10 = m / 10 + 1 := by omega
      rw [h3]
      have h4 : max 1 (m / 10 + 1) = m / 10 + 1 := by omega
      rw [h4]
      push_cast
      omega

lemma total_pages_toNat (n : Nat) :
    (total_pages n).toNat = max 1 ((n + 9) / 10) := by
  rw [total_pages_eq]; exact Int.toNat_ofNat _

lemma total_pages_mul_ge (n : Nat) : n ≤ (total_pages n).toNat * page_size := by
  rw [total_pages_toNat]
  unfold page_size
  omega

lemma take_add_split (l : List α) (m n : Nat) :
    l.take (m + n) = l.take m ++ (l.drop m).take n := by
  conv_lhs => rw [← List.take_append_drop m (l.take (m + n))]
  rw [List.take_take, List.take_drop]
  have hmin : min m (m + n) = m := Nat.min_eq_left (Nat.le_add_right m n)
  rw [hmin]

lemma pages_flatten (t : List α) (n : Nat) :
    ((List.range n).map (fun i => paginated t (i + 1))).flatten
      = t.take (n * page_size) := by
  induction n with
  | zero => simp
  | succ k ih =>
      rw [List.range_succ, List.map_append, List.flatten_append, ih]
      have hp : paginated t (k + 1) = (t.drop (k * page_size)).take page_size := by
        simp [paginated]
      simp only [List.map_cons, List.map_nil, List.flatten_cons, List.flatten_nil,
        List.append_nil, hp]
      rw [← take_add_split]
      congr 1
      ring

/-- C2: for every Filtered Result and every 1-based page number P within
range, `paginated` returns exactly the slice of rows from index
`(P-1)*10` (inclusive) to `min(N, P*10)` (exclusive), and the total page
count equals `max 1 ⌈N/10⌉`; in particular it is 1 when N = 0. -/
theorem paginated_is_slice (t : List α) (P : Nat) (h1 : 1 ≤ P)
    (h2 : (P : Int) ≤ total_pages t.length) :
    paginated t P = (t.take (P * page_size)).drop ((P - 1) * page_size)
      ∧ total_pages t.length = ((max 1 ((t.length + 9) / 10) : Nat) : Int)
      ∧ total_pages 0 = 1 := by
  refine ⟨?_, total_pages_eq t.length, by decide⟩
  unfold paginated
  rw [List.take_drop]
  have e : (P - 1) * page_size + page_size = P * page_size := by
    unfold page_size
    omega
  rw [e]

theorem paginated_is_slice_witness :
    paginated (List.range 23) 2
        = ((List.range 23).take (2 * page_size)).drop ((2 - 1) * page_size)
      ∧ total_pages (List.range (23 : Nat)).length
          = ((max 1 (((List.range (23 : Nat)).length + 9) / 10) : Nat) : Int)
      ∧ total_pages 0 = 1 :=
  paginated_is_slice (List.range 23) 2 (by decide) (by decide)

/-- C8: concatenating pages 1 through `total_pages` in order reproduces the
Filtered Result exactly, every non-final page has exactly 10 records, and
the final page holds the remaining `N - (total_pages - 1) * 10` records. -/
theorem pages_partition (t : List α) :
    ((List.range (total_pages t.length).toNat).map
        (fun i => paginated t (i + 1))).flatten = t
      ∧ (∀ p : Nat, 1 ≤ p → p < (total_pages t.length).toNat →
          (paginated t p).length = page_size)
      ∧ (paginated t (total_pages t.length).toNat).length
          = t.length - ((total_pages t.length).toNat - 1) * page_size := by
  refine ⟨?_, ?_, ?_⟩
  · rw [pages_flatten]
    exact List.take_of_length_le (total_pages_mul_ge t.length)
  · intro p hp1 hp2
    rw [total_pages_toNat] at hp2
    simp only [paginated, List.length_take, List.length_drop]
    unfold page_size
    omega
  · have h := total_pages_toNat t.length
    simp only [paginated, List.length_take, List.length_drop]
    unfold page_size
    omega

theorem pages_partition_witness :
    ((List.range (total_pages (List.range (23 : Nat)).length).toNat).map
        (fun i => paginated (List.range 23) (i + 1))).flatten = List.range 23
      ∧ (paginated (List.range 23) 2).length = page_size
      ∧ (paginated (List.range 23) 3).length = 3 := by
  have h := pages_partition (List.range (23 : Nat))
  refine ⟨h.1, h.2.1 2 (by decide) (by decide), ?_⟩
  have h3 := h.2.2
  have e : (total_pages (List.range (23 : Nat)).length).toNat = 3 := by decide
  rw [e] at h3
  rw [h3]
  decide

/-! ### Fuzzy Search Filter  (src/gcluster.py lines 49–54)

`def fuzzy_filter(df, query):`
`    if not query.strip(): return df`
`    query = query.lower()`
`    mask = df.apply(lambda row: any(fuzz... (str(cell).lower(), query) > 70`
`                                    for cell in row), axis=1)`
`    return df[mask]`

The rapidfuzz scoring call is an external library function; it enters the
embedding as the parameter `score`, and the row's cells enter as the
projection `cellsOf` (pandas iterates every column of the row). -/

def isPySpace (c : Char) : Bool :=
  c = ' ' || c = '\t' || c = '\n' || c = '\r' || c = '\x0b' || c = '\x0c'

/-- Python `str.lower()` (ASCII fragment, matching `Char.toLower`),
written so that the kernel can evaluate it on literals. -/
def pyLower (s : String) : String :=
  String.mk (s.toList.map Char.toLower)

/-- Python `str.strip()` with no argument: remove leading and trailing
whitespace. -/
def pyStrip (s : String) : String :=
  String.mk (((s.toList.dropWhile isPySpace).reverse.dropWhile isPySpace).reverse)

def fuzzy_filter (score : String → String → Nat) (cellsOf : α → List String)
    (t : List α) (query : String) : List α :=
  if pyStrip query = "" then t
  else
    let q := pyLower query
    t.filter (fun row => (cellsOf row).any (fun cell => 70 < score (pyLower cell) q))

/-- C3: for a non-whitespace-only query, the fuzzy filter keeps exactly the
rows in which at least one cell, lower-cased, scores strictly above 70
against the lower-cased query; a row is kept iff any of its cells matches. -/
theorem fuzzy_filter_matches (score : String → String → Nat)
    (cellsOf : α → List String) (t : List α) (query : String)
    (h : pyStrip query ≠ "") :
    fuzzy_filter score cellsOf t query
        = t.filter (fun row => (cellsOf row).any
            (fun cell => 70 < score (pyLower cell) (pyLower query)))
      ∧ ∀ row, row ∈ fuzzy_filter score cellsOf t query ↔
          row ∈ t ∧ ∃ cell ∈ cellsOf row, 70 < score (pyLower cell) (pyLower query) := by
  constructor
  · simp only [fuzzy_filter, if_neg h]
  · intro row
    simp [fuzzy_filter, if_neg h]

theorem fuzzy_filter_matches_witness :
    pyStrip "ABC" ≠ ""
      ∧ fuzzy_filter (fun a b => if a = b then 100 else 0)
          (fun r : List String => r) [["abc"], ["xyz"]] "ABC" = [["abc"]] := by
  refine ⟨by decide, ?_⟩
  have h := fuzzy_filter_matches (fun a b => if a = b then 100 else 0)
    (fun r : List String => r) [["abc"], ["xyz"]] "ABC" (by decide)
  rw [h.1]
  decide

/-- C9: an empty or whitespace-only query makes the fuzzy filter the
identity: the Table is returned unchanged. -/
theorem fuzzy_filter_identity (score : String → String → Nat)
    (cellsOf : α → List String) (t : List α) (query : String)
    (h : pyStrip query = "") :
    fuzzy_filter score cellsOf t query = t := by
  simp [fuzzy_filter, h]

theorem fuzzy_filter_identity_witness :
    fuzzy_filter (fun _ _ => 0) (fun r : List String => r) [["a"], ["b"]] " \t "
      = [["a"], ["b"]] :=
  fuzzy_filter_identity (fun _ _ => 0) (fun r : List String => r)
    [["a"], ["b"]] " \t " (by decide)

/-! ### The cleaned Table's rows

After preprocessing, every row carries the nine categorical string fields,
a parsed `Date` (modelled as an `Int` ordinal: only ordering matters), a
possibly-null `DateTime`, and the remaining cells (Distributor Name,
Outlet Code, images, …) as strings.  All cells are strings because the
sheet is loaded with `dtype=str`; `Distributor Code` is therefore compared
through its string representation exactly as `.astype(str)` does. -/

structure Row where
  Cluster : String
  ASM : String
  SDE : String
  AuditorName : String
  DistributorCode : String
  Salesman : String
  route_name : String
  OutletName : String
  AbsentReason : String
  Date : Int
  DateTime : Option Int
  otherCells : List String
deriving DecidableEq

def Row.allCells (r : Row) : List String :=
  [r.Cluster, r.ASM, r.SDE, r.AuditorName, r.DistributorCode, r.Salesman,
   r.route_name, r.OutletName, r.AbsentReason, toString r.Date,
   toString r.DateTime] ++ r.otherCells

/-! ### Date Range Filter  (src/gcluster.py line 115)

`filtered = filtered[(filtered['Date'].dt.date >= from_date) &`
`                    (filtered['Date'].dt.date <= to_date)]` -/

def dateRangeFilter (from_date to_date : Int) (t : List Row) : List Row :=
  t.filter (fun r => decide (from_date ≤ r.Date) && decide (r.Date ≤ to_date))

def sampleRow : Row :=
  ⟨"c1", "a1", "s1", "au1", "d1", "sm1", "r1", "o1", "ab1", 5, some 5, []⟩

/-- C4: the date-range mask keeps exactly the rows whose `Date` lies in
[from, to], inclusive at both ends; when from > to the result is empty. -/
theorem dateRangeFilter_spec (from_date to_date : Int) (t : List Row) :
    (∀ r, r ∈ dateRangeFilter from_date to_date t ↔
        r ∈ t ∧ from_date ≤ r.Date ∧ r.Date ≤ to_date)
      ∧ (to_date < from_date → dateRangeFilter from_date to_date t = []) := by
  constructor
  · intro r
    simp [dateRangeFilter]
  · intro hlt
    unfold dateRangeFilter
    rw [List.filter_eq_nil_iff]
    intro r _
    simp only [Bool.and_eq_true, decide_eq_true_eq, not_and]
    omega

theorem dateRangeFilter_spec_witness :
    sampleRow ∈ dateRangeFilter 5 5 [sampleRow]
      ∧ dateRangeFilter 7 3 [sampleRow] = [] :=
  ⟨((dateRangeFilter_spec 5 5 [sampleRow]).1 sampleRow).mpr (by decide),
   (dateRangeFilter_spec 7 3 [sampleRow]).2 (by decide)⟩

/-! ### Cascading Filter Engine  (src/gcluster.py lines 61–95)

Each step is literally
`dfk = df(k-1) if sel == 'All' else df(k-1)[df(k-1)[col] == sel]`
and its dropdown offers `['All'] + sorted(df(k-1)[col].unique())`.
`Distributor Code` goes through `.astype(str)`; in this embedding every
cell already is a string, so `.astype(str)` is the identity. -/

structure Sels where
  cluster : String
  asm : String
  sde : String
  auditor : String
  dist : String
  salesman : String
  route : String
  outlet : String
deriving DecidableEq

def narrow (get : Row → String) (sel : String) (t : List Row) : List Row :=
  if sel = "All" then t else t.filter (fun r => get r == sel)

def df1 (t : List Row) (s : Sels) : List Row := narrow Row.Cluster s.cluster t
def df2 (t : List Row) (s : Sels) : List Row := narrow Row.ASM s.asm (df1 t s)
def df3 (t : List Row) (s : Sels) : List Row := narrow Row.SDE s.sde (df2 t s)
def df4 (t : List Row) (s : Sels) : List Row :=
  narrow Row.AuditorName s.auditor (df3 t s)
def df5 (t : List Row) (s : Sels) : List Row :=
  narrow Row.DistributorCode s.dist (df4 t s)
def df6 (t : List Row) (s : Sels) : List Row :=
  narrow Row.Salesman s.salesman (df5 t s)
def df7 (t : List Row) (s : Sels) : List Row := narrow Row.route_name s.route (df6 t s)
def df8 (t : List Row) (s : Sels) : List Row := narrow Row.OutletName s.outlet (df7 t s)

/-- Python `sorted(xs.unique())`: the distinct values, in sorted order. -/
def sortedUnique (l : List String) : List String :=
  List.insertionSort (· ≤ ·) l.dedup

/-- The dropdown candidate list: `['All'] + sorted(running[col].unique())`. -/
def candidates (get : Row → String) (t : List Row) : List String :=
  "All" :: sortedUnique (t.map get)

/-- One selection matches a row when it is the sentinel "All" or equals the
row's field value exactly (case-sensitive). -/
def matchesSel (p : (Row → String) × String) (r : Row) : Bool :=
  p.2 == "All" || p.1 r == p.2

def selPairs (s : Sels) : List ((Row → String) × String) :=
  [(Row.Cluster, s.cluster), (Row.ASM, s.asm), (Row.SDE, s.sde),
   (Row.AuditorName, s.auditor), (Row.DistributorCode, s.dist),
   (Row.Salesman, s.salesman), (Row.route_name, s.route),
   (Row.OutletName, s.outlet)]

/-- Modelled from the spec's words: the rows of the cleaned Table matching
all non-"All" selections for the first `k` cascading fields. -/
def specFiltered (t : List Row) (s : Sels) (k : Nat) : List Row :=
  t.filter (fun r => ((selPairs s).take k).all (fun p => matchesSel p r))

def cascadeList (t : List Row) : List ((Row → String) × String) → List Row
  | [] => t
  | p :: ps => cascadeList (narrow p.1 p.2 t) ps

lemma narrow_eq_filter (get : Row → String) (sel : String) (t : List Row) :
    narrow get sel t = t.filter (fun r => sel == "All" || get r == sel) := by
  unfold narrow
  by_cases h : sel = "All"
  · subst h
    simp
  · rw [if_neg h]
    have hb : (sel == "All") = false := beq_false_of_ne h
    simp [hb]

lemma cascadeList_eq_filter (ps : List ((Row → String) × String)) :
    ∀ t : List Row,
      cascadeList t ps = t.filter (fun r => ps.all (fun p => matchesSel p r)) := by
  induction ps with
  | nil => intro t; simp [cascadeList]
  | cons p ps ih =>
      intro t
      show cascadeList (narrow p.1 p.2 t) ps = _
      rw [ih, narrow_eq_filter, List.filter_filter]
      refine List.filter_congr ?_
      intro r _
      simp only [List.all_cons, matchesSel]
      exact Bool.and_comm _ _

lemma specFiltered_zero (t : List Row) (s : Sels) : specFiltered t s 0 = t := by
  simp [specFiltered]

lemma df1_eq (t : List Row) (s : Sels) : df1 t s = specFiltered t s 1 :=
  cascadeList_eq_filter ((selPairs s).take 1) t

lemma df2_eq (t : List Row) (s : Sels) : df2 t s = specFiltered t s 2 :=
  cascadeList_eq_filter ((selPairs s).take 2) t

lemma df3_eq (t : List Row) (s : Sels) : df3 t s = specFiltered t s 3 :=
  cascadeList_eq_filter ((selPairs s).take 3) t

lemma df4_eq (t : List Row) (s : Sels) : df4 t s = specFiltered t s 4 :=
  cascadeList_eq_filter ((selPairs s).take 4) t

lemma df5_eq (t : List Row) (s : Sels) : df5 t s = specFiltered t s 5 :=
  cascadeList_eq_filter ((selPairs s).take 5) t

lemma df6_eq (t : List Row) (s : Sels) : df6 t s = specFiltered t s 6 :=
  cascadeList_eq_filter ((selPairs s).take 6) t

lemma df7_eq (t : List Row) (s : Sels) : df7 t s = specFiltered t s 7 :=
  cascadeList_eq_filter ((selPairs s).take 7) t

lemma df8_eq (t : List Row) (s : Sels) : df8 t s = specFiltered t s 8 :=
  cascadeList_eq_filter ((selPairs s).take 8) t

/-- C1: for every cleaned Table and every selection vector over the eight
cascading fields, the candidate list offered for field k is exactly "All"
followed by the sorted distinct field-k values among the rows matching all
non-"All" selections for fields before k, and the cascade's final table is
exactly the rows matching all non-"All" selections. -/
theorem cascade_spec (t : List Row) (s : Sels) :
    candidates Row.Cluster t
        = "All" :: sortedUnique ((specFiltered t s 0).map Row.Cluster)
      ∧ candidates Row.ASM (df1 t s)
          = "All" :: sortedUnique ((specFiltered t s 1).map Row.ASM)
      ∧ candidates Row.SDE (df2 t s)
          = "All" :: sortedUnique ((specFiltered t s 2).map Row.SDE)
      ∧ candidates Row.AuditorName (df3 t s)
          = "All" :: sortedUnique ((specFiltered t s 3).map Row.AuditorName)
      ∧ candidates Row.DistributorCode (df4 t s)
          = "All" :: sortedUnique ((specFiltered t s 4).map Row.DistributorCode)
      ∧ candidates Row.Salesman (df5 t s)
          = "All" :: sortedUnique ((specFiltered t s 5).map Row.Salesman)
      ∧ candidates Row.route_name (df6 t s)
          = "All" :: sortedUnique ((specFiltered t s 6).map Row.route_name)
      ∧ candidates Row.OutletName (df7 t s)
          = "All" :: sortedUnique ((specFiltered t s 7).map Row.OutletName)
      ∧ df8 t s = specFiltered t s 8 := by
  refine ⟨?_, ?_, ?_, ?_, ?_, ?_, ?_, ?_, df8_eq t s⟩
  · rw [candidates, specFiltered_zero]
  · rw [candidates, df1_eq]
  · rw [candidates, df2_eq]
  · rw [candidates, df3_eq]
  · rw [candidates, df4_eq]
  · rw [candidates, df5_eq]
  · rw [candidates, df6_eq]
  · rw [candidates, df7_eq]

def allSels : Sels := ⟨"All", "All", "All", "All", "All", "All", "All", "All"⟩

/-- C7: selecting "All" for every cascading field and for Absent Reason
leaves the cleaned Table unchanged: the categorical stage is the identity. -/
theorem all_selections_identity (t : List Row) :
    df8 t allSels = t ∧ narrow Row.AbsentReason "All" (df8 t allSels) = t := by
  have h : df8 t allSels = t := by
    simp [df8, df7, df6, df5, df4, df3, df2, df1, narrow, allSels]
  refine ⟨h, ?_⟩
  rw [h]
  simp [narrow]

/-! ### Preprocessor  (src/gcluster.py lines 37–46)

`df.fillna("Not Available", inplace=True)`
`df['DateTime'] = pd.to_datetime(df['Date'] + ' ' + df['Time Stamp'],`
`                                format='%d-%m-%Y %H:%M:%S', errors='coerce')`
`df['Date'] = pd.to_datetime(df['Date'], format='%d-%m-%Y', errors='coerce')`
`df.dropna(subset=['Date'], inplace=True)`
`df.sort_values(by='DateTime', inplace=True)`

The two pandas parsers are external collaborators and enter as parameters
`parseDate` / `parseDT`; `errors='coerce'` makes each return null (`none`)
on failure.  `sort_values` sorts ascending with nulls placed last
(`na_position='last'` is the pandas default). -/

structure RawRecord where
  dateCell : Option String
  timeStampCell : Option String
  otherCells : List (Option String)
deriving DecidableEq

/-- `fillna("Not Available")` on one cell: a missing cell becomes the
sentinel string. -/
def fillCell (c : Option String) : String := c.getD "Not Available"

structure CleanedRecord where
  Date : Int
  DateTime : Option Int
  DateStr : String
  TimeStampStr : String
  cells : List String
deriving DecidableEq

/-- One row of the preprocessing block: fill the cells, derive `DateTime`
from `Date ++ " " ++ Time Stamp`, re-parse `Date`, and drop the row
(`none`) exactly when `Date` fails to parse. -/
def cleanRow (parseDate parseDT : String → Option Int) (r : RawRecord) :
    Option CleanedRecord :=
  match parseDate (fillCell r.dateCell) with
  | none => none
  | some d =>
      some ⟨d, parseDT (fillCell r.dateCell ++ " " ++ fillCell r.timeStampCell),
        fillCell r.dateCell, fillCell r.timeStampCell,
        r.otherCells.map fillCell⟩

/-- Ordering used by `sort_values(by='DateTime')`: ascending on parsed
values, with nulls (`NaT`) sorting last. -/
def dtLE (a b : Option Int) : Prop :=
  match b with
  | none => True
  | some bv =>
      match a with
      | none => False
      | some av => av ≤ bv

instance instDecDtLE (a b : Option Int) : Decidable (dtLE a b) := by
  unfold dtLE
  cases b with
  | none => exact .isTrue trivial
  | some bv =>
      cases a with
      | none => exact .isFalse id
      | some av => exact inferInstanceAs (Decidable (av ≤ bv))

def recLE (a b : CleanedRecord) : Prop := dtLE a.DateTime b.DateTime

instance : DecidableRel recLE := fun a b => instDecDtLE a.DateTime b.DateTime

instance : IsTotal CleanedRecord recLE := by
  constructor
  intro a b
  unfold recLE
  cases a.DateTime <;> cases b.DateTime <;> simp [dtLE] <;> omega

instance : IsTrans CleanedRecord recLE := by
  constructor
  intro a b c
  unfold recLE
  cases a.DateTime <;> cases b.DateTime <;> cases c.DateTime <;>
    intro hab hbc <;> simp [dtLE] at * <;> omega

def preprocess (parseDate parseDT : String → Option Int) (t : List RawRecord) :
    List CleanedRecord :=
  List.insertionSort recLE (t.filterMap (cleanRow parseDate parseDT))

lemma cleanRow_date (parseDate parseDT : String → Option Int) (r : RawRecord)
    (c : CleanedRecord) (h : cleanRow parseDate parseDT r = some c) :
    parseDate c.DateStr = some c.Date := by
  unfold cleanRow at h
  cases hp : parseDate (fillCell r.dateCell) with
  | none => rw [hp] at h; exact absurd h (by simp)
  | some d =>
      rw [hp] at h
      simp only [Option.some.injEq] at h
      rw [← h]
      exact hp

lemma preprocess_perm (parseDate parseDT : String → Option Int)
    (t : List RawRecord) :
    (preprocess parseDate parseDT t).Perm
      (t.filterMap (cleanRow parseDate parseDT)) :=
  List.perm_insertionSort recLE _

/-- C5: preprocessing drops exactly the rows whose `Date` cell fails to
parse — the cleaned Table is a permutation of the per-row cleaning results,
a record is present iff some raw row cleans to it, every surviving record
carries a parseable `Date` — and the survivors are sorted ascending by the
derived `DateTime`. -/
theorem preprocess_spec (parseDate parseDT : String → Option Int)
    (t : List RawRecord) :
    (preprocess parseDate parseDT t).Perm
        (t.filterMap (cleanRow parseDate parseDT))
      ∧ (∀ c, c ∈ preprocess parseDate parseDT t ↔
          ∃ r ∈ t, cleanRow parseDate parseDT r = some c)
      ∧ (∀ c ∈ preprocess parseDate parseDT t, parseDate c.DateStr = some c.Date)
      ∧ List.Sorted recLE (preprocess parseDate parseDT t) := by
  refine ⟨preprocess_perm parseDate parseDT t, ?_, ?_, ?_⟩
  · intro c
    rw [(preprocess_perm parseDate parseDT t).mem_iff, List.mem_filterMap]
  · intro c hc
    rw [(preprocess_perm parseDate parseDT t).mem_iff, List.mem_filterMap] at hc
    obtain ⟨r, _, hr⟩ := hc
    exact cleanRow_date parseDate parseDT r c hr
  · exact List.sorted_insertionSort recLE _

/-- A concrete stand-in for the external day-month-year date parser, used
only to instantiate theorems at concrete inputs. -/
def pdToy : String → Option Int := fun s => if s = "01-01-2024" then some 1 else none

/-- A concrete stand-in for the external date-time parser that fails on
every input (time part unparsable). -/
def pdtToy : String → Option Int := fun _ => none

def rawToy : RawRecord := ⟨some "01-01-2024", some "24:99:99", [none]⟩

def cleanedToy : CleanedRecord :=
  ⟨1, none, "01-01-2024", "24:99:99", ["Not Available"]⟩

theorem preprocess_spec_witness :
    cleanedToy ∈ preprocess pdToy pdtToy [rawToy]
      ∧ pdToy cleanedToy.DateStr = some cleanedToy.Date := by
  have h := preprocess_spec pdToy pdtToy [rawToy]
  have hmem : cleanedToy ∈ preprocess pdToy pdtToy [rawToy] :=
    (h.2.1 cleanedToy).mpr ⟨rawToy, by decide, by decide⟩
  exact ⟨hmem, h.2.2.1 cleanedToy hmem⟩

/-- C10: a row whose `Date` parses but whose combined `Date Time Stamp`
fails to parse is retained with a null `DateTime`, and the chronological
sort places every null-`DateTime` record after all non-null ones. -/
theorem preprocess_nulls_last (parseDate parseDT : String → Option Int)
    (t : List RawRecord) :
    (∀ r ∈ t, ∀ d : Int,
        parseDate (fillCell r.dateCell) = some d →
        parseDT (fillCell r.dateCell ++ " " ++ fillCell r.timeStampCell) = none →
        (⟨d, none, fillCell r.dateCell, fillCell r.timeStampCell,
            r.otherCells.map fillCell⟩ : CleanedRecord)
          ∈ preprocess parseDate parseDT t)
      ∧ List.Pairwise (fun a b => a.DateTime = none → b.DateTime = none)
          (preprocess parseDate parseDT t) := by
  constructor
  · intro r hr d hp hq
    rw [(preprocess_perm parseDate parseDT t).mem_iff, List.mem_filterMap]
    refine ⟨r, hr, ?_⟩
    unfold cleanRow
    rw [hp, hq]
  · have hs : List.Pairwise recLE (preprocess parseDate parseDT t) :=
      List.sorted_insertionSort recLE _
    refine hs.imp ?_
    intro a b hab hanone
    unfold recLE at hab
    rw [hanone] at hab
    cases hb : b.DateTime with
    | none => rfl
    | some bv =>
        rw [hb] at hab
        exact hab.elim

theorem preprocess_nulls_last_witness :
    cleanedToy ∈ preprocess pdToy pdtToy [rawToy] := by
  have h := (preprocess_nulls_last pdToy pdtToy [rawToy]).1 rawToy
    (by decide) 1 (by decide) (by decide)
  exact h

/-! ### The session pipeline  (src/gcluster.py lines 111–130)

`filtered = df8.copy()` then, on submit: the Absent Reason exact filter,
the date-range mask, the fuzzy search (`if search:` skips it for the empty
string), and finally pagination. -/

def fullPipeline (score : String → String → Nat) (t : List Row) (s : Sels)
    (absent : String) (from_date to_date : Int) (query : String)
    (page : Nat) : List Row :=
  let t1 := narrow Row.AbsentReason absent (df8 t s)
  let t2 := dateRangeFilter from_date to_date t1
  let t3 := if query = "" then t2 else fuzzy_filter score Row.allCells t2 query
  paginated t3 page

lemma narrow_sublist (get : Row → String) (sel : String) (t : List Row) :
    (narrow get sel t).Sublist t := by
  unfold narrow
  split
  · exact List.Sublist.refl t
  · exact List.filter_sublist t

lemma fuzzy_filter_sublist (score : String → String → Nat)
    (cellsOf : α → List String) (t : List α) (query : String) :
    (fuzzy_filter score cellsOf t query).Sublist t := by
  unfold fuzzy_filter
  split
  · exact List.Sublist.refl t
  · exact List.filter_sublist t

/-- C6: the pipeline from the cascade through pagination is a total
function: on every cleaned Table — the empty one included — and every
combination of selections, query and dates it yields a result, a sublist
of its input; on the empty Table the result is empty and the candidate
sets collapse to just "All". -/
theorem pipeline_total (score : String → String → Nat) (t : List Row)
    (s : Sels) (absent : String) (from_date to_date : Int) (query : String)
    (page : Nat) :
    (fullPipeline score t s absent from_date to_date query page).Sublist t
      ∧ fullPipeline score [] s absent from_date to_date query page = []
      ∧ candidates Row.Cluster ([] : List Row) = ["All"] := by
  refine ⟨?_, ?_, by decide⟩
  · have h1 : (df8 t s).Sublist t := by
      rw [df8_eq]
      exact List.filter_sublist t
    have h2 := (narrow_sublist Row.AbsentReason absent (df8 t s)).trans h1
    have h3 := (List.filter_sublist (l := narrow Row.AbsentReason absent (df8 t s))
      (p := fun r => decide (from_date ≤ r.Date) && decide (r.Date ≤ to_date))).trans h2
    have h4 : (if query = ""
        then dateRangeFilter from_date to_date (narrow Row.AbsentReason absent (df8 t s))
        else fuzzy_filter score Row.allCells
          (dateRangeFilter from_date to_date (narrow Row.AbsentReason absent (df8 t s)))
          query).Sublist t := by
      split
      · exact h3
      · exact (fuzzy_filter_sublist score Row.allCells _ query).trans h3
    exact ((List.take_sublist _ _).trans (List.drop_sublist _ _)).trans h4
  · simp [fullPipeline, df8, df7, df6, df5, df4, df3, df2, df1, narrow,
      dateRangeFilter, fuzzy_filter, paginated]

end GSheet
